import Mathlib

set_option linter.unusedVariables false

set_option allowUnsafeReducibility true

attribute [local semireducible] Rat.mul Rat.add Rat.sub Rat.div Rat.inv Rat.neg

/-!
Verification of the TestFileGenerator core pipeline: a shallow embedding of
the configuration models (`src/models/data_config.py`), the per-type value
generators (`src/generators/data_generator.py`), the per-format file writers
(`src/generators/file_generators.py`) and the orchestration service
(`src/services/data_generation_service.py`).

Modelling conventions:
* Python floats are embedded as exact rationals (`ℚ`).
* The process-wide `random` module, Faker's shared generator and the OS
  entropy pool behind `uuid.uuid4` are three independent draw streams
  (`Nat → Nat`) carried in a `World` record; each primitive draw consumes the
  head of its stream.  `random.seed(s)` replaces the `rand` stream with a
  stream that is a function of `s` alone; Faker's stream and the OS entropy
  stream are unaffected by it, exactly as in CPython.
* The Mersenne Twister itself and Faker's lexicon are library internals, not
  code of this repository; they are abstracted: quantification over all
  streams stands for the set of values the library can return, and Faker
  outputs are an opaque injective rendering of the consumed draw.
* The filesystem is abstracted: a writer returns the file content it would
  persist at `config.output_path` (`FileOutput`), and an `Except.error`
  result means no file is produced.
-/

/-- An infinite supply of raw pseudo-random draws, one natural number per
primitive draw of the underlying library. -/
def DrawStream := Nat → Nat

/-- Drop the first draw of a stream. -/
def tailStream (s : DrawStream) : DrawStream := fun n => s (n + 1)

/-- The ambient random state of one Python process: the `random` module's
global PRNG, Faker's shared generator, and the OS entropy pool consumed by
`uuid.uuid4`. -/
structure World where
  rand : DrawStream
  faker : DrawStream
  urandom : DrawStream

/-- Consume one draw from the `random` module's stream. -/
def World.advanceRand (w : World) : World := { w with rand := tailStream w.rand }

/-- Consume one draw from Faker's shared stream. -/
def World.advanceFaker (w : World) : World := { w with faker := tailStream w.faker }

/-- Consume one draw from the OS entropy stream. -/
def World.advanceUrandom (w : World) : World := { w with urandom := tailStream w.urandom }

/-- Python's `int()` coercion on a float: truncation toward zero. -/
def pyInt (q : ℚ) : Int := Int.tdiv q.num (Int.ofNat q.den)

/-- Python's `round()` to the nearest integer: round half to even. -/
def roundHalfEven (q : ℚ) : Int :=
  if q - ⌊q⌋ < 1 / 2 then ⌊q⌋
  else if 1 / 2 < q - ⌊q⌋ then ⌊q⌋ + 1
  else if ⌊q⌋ % 2 = 0 then ⌊q⌋ else ⌊q⌋ + 1

/-- Python's `round(x, 2)`: round to the nearest multiple of 1/100. -/
def round2 (q : ℚ) : ℚ := (roundHalfEven (q * 100) : ℚ) / 100

/-- The closed set of semantic column types (`DataType` in
`src/models/data_config.py`). -/
inductive DataType where
  | name
  | email
  | phone
  | address
  | company
  | job
  | date
  | integer
  | float
  | boolean
  | text
  | url
  | ip_address
  | uuid
  | credit_card
deriving DecidableEq, Repr

/-- The string value of each `DataType` member (it is a `str`-valued enum, so
each member compares equal to its value). -/
def DataType.value : DataType → String
  | .name => "name"
  | .email => "email"
  | .phone => "phone"
  | .address => "address"
  | .company => "company"
  | .job => "job"
  | .date => "date"
  | .integer => "integer"
  | .float => "float"
  | .boolean => "boolean"
  | .text => "text"
  | .url => "url"
  | .ip_address => "ip_address"
  | .uuid => "uuid"
  | .credit_card => "credit_card"

/-- Configuration for a single column (`ColumnConfig`). -/
structure ColumnConfig where
  name : String
  data_type : DataType
  min_value : Option ℚ
  max_value : Option ℚ
  text_length : Option Int
deriving DecidableEq, Repr

/-- The `validate_numeric_range` field validator of `ColumnConfig`.  Pydantic
passes `info.data`, the mapping of the fields already validated before the
current one; the validator only compares the bounds when both the key
`min_value` and the key `max_value` are present in that mapping. -/
def validate_numeric_range (v : Option ℚ) (dataHasMin dataHasMax : Bool)
    (dataMin dataMax : Option ℚ) : Except String (Option ℚ) :=
  if v.isSome then
    if dataHasMin && dataHasMax then
      match dataMin, dataMax with
      | some mn, some mx => if mx ≤ mn then .error "min_value must be less than max_value" else .ok v
      | _, _ => .ok v
    else .ok v
  else .ok v

/-- The `validate_text_length` field validator of `ColumnConfig`. -/
def validate_text_length (v : Option Int) : Except String (Option Int) :=
  match v with
  | some t => if t ≤ 0 then .error "Text length must be positive" else .ok v
  | none => .ok v

/-- Pydantic construction of a `ColumnConfig`.  Field validators run in field
declaration order (`name`, `data_type`, `min_value`, `max_value`,
`text_length`); while a field is being validated, `info.data` holds only the
earlier fields, so when `min_value` is validated the data has neither bound,
and when `max_value` is validated the data has `min_value` but not
`max_value`. -/
def ColumnConfig.construct (name : String) (data_type : DataType)
    (min_value max_value : Option ℚ) (text_length : Option Int) :
    Except String ColumnConfig :=
  match validate_numeric_range min_value false false none none with
  | .error e => .error e
  | .ok mn =>
    match validate_numeric_range max_value true false mn none with
    | .error e => .error e
    | .ok mx =>
      match validate_text_length text_length with
      | .error e => .error e
      | .ok tl => .ok ⟨name, data_type, mn, mx, tl⟩

/-- The closed set of output formats (the `Literal` type of
`FileConfig.file_format`). -/
inductive FileFormat where
  | csv
  | json
  | xml
  | txt
  | excel
deriving DecidableEq, Repr

/-- The string form of each format. -/
def FileFormat.value : FileFormat → String
  | .csv => "csv"
  | .json => "json"
  | .xml => "xml"
  | .txt => "txt"
  | .excel => "excel"

/-- Configuration for file generation (`FileConfig`). -/
structure FileConfig where
  file_format : FileFormat
  num_rows : Nat
  num_columns : Nat
  columns : List ColumnConfig
  output_path : String
deriving DecidableEq, Repr

/-- Python's `str.strip()`: drop leading and trailing whitespace.  (Core
`String.trim` is avoided because its byte-position arithmetic does not reduce
in the kernel.) -/
def isSpaceChar (c : Char) : Bool :=
  c == ' ' || c == '\t' || c == '\n' || c == '\r'

/-- Python's `str.strip()` on the characters of a string. -/
def pyStrip (s : String) : String :=
  String.mk (((s.toList.dropWhile isSpaceChar).reverse.dropWhile isSpaceChar).reverse)

/-- Pydantic construction of a `FileConfig`: the `ge`/`le` bounds on
`num_rows` and `num_columns`, the `validate_columns_match_count` validator
(whose `info.data` guard is satisfied because `num_columns` is declared
before `columns`), and the `validate_output_path` validator. -/
def FileConfig.construct (file_format : FileFormat) (num_rows num_columns : Nat)
    (columns : List ColumnConfig) (output_path : String) :
    Except String FileConfig :=
  if num_rows < 1 then .error "num_rows must be greater than or equal to 1"
  else if 1000000 < num_rows then .error "num_rows must be less than or equal to 1000000"
  else if num_columns < 1 then .error "num_columns must be greater than or equal to 1"
  else if 100 < num_columns then .error "num_columns must be less than or equal to 100"
  else if columns.length ≠ num_columns then
    .error ("Number of columns (" ++ toString columns.length ++ ") must match num_columns ("
      ++ toString num_columns ++ ")")
  else if pyStrip output_path = "" then .error "Output path cannot be empty"
  else .ok ⟨file_format, num_rows, num_columns, columns, output_path⟩

/-- Complete request for data generation (`GenerationRequest`). -/
structure GenerationRequest where
  config : FileConfig
  seed : Option Int
  batch_size : Nat
deriving Repr

/-- Pydantic construction of a `GenerationRequest`: `batch_size` must lie in
the closed range 100..10000. -/
def GenerationRequest.construct (config : FileConfig) (seed : Option Int)
    (batch_size : Nat) : Except String GenerationRequest :=
  if batch_size < 100 then .error "batch_size must be greater than or equal to 100"
  else if 10000 < batch_size then .error "batch_size must be less than or equal to 10000"
  else .ok ⟨config, seed, batch_size⟩

/-- A `ColumnConfig` value is constructible iff re-running its pydantic
validators on its own fields succeeds. -/
def ColumnConfig.constructible (c : ColumnConfig) : Bool :=
  match ColumnConfig.construct c.name c.data_type c.min_value c.max_value c.text_length with
  | .ok _ => true
  | .error _ => false

/-- A `FileConfig` value is valid iff its own fields, and those of each of
its columns, pass the pydantic construction checks. -/
def FileConfig.valid (c : FileConfig) : Bool :=
  c.columns.all ColumnConfig.constructible &&
    match FileConfig.construct c.file_format c.num_rows c.num_columns c.columns c.output_path with
    | .ok _ => true
    | .error _ => false

/-- A generated cell value: Python `str`, `int`, `float` or `bool`. -/
inductive Value where
  | str (s : String)
  | int (n : Int)
  | float (q : ℚ)
  | bool (b : Bool)
deriving DecidableEq, Repr

/-- A Python `dict` with string keys: an insertion-ordered association list
whose keys are kept unique by `dictSet`. -/
abbrev PyDict := List (String × Value)

/-- Insert-or-overwrite on a Python dict: `d[k] = v` keeps the original
insertion position of an existing key and appends a new key at the end. -/
def dictSet : PyDict → String → Value → PyDict
  | [], k, v => [(k, v)]
  | (k', v') :: rest, k, v =>
    if k' = k then (k, v) :: rest else (k', v') :: dictSet rest k v

/-- Lookup on a Python dict (first matching key). -/
def dictGet : PyDict → String → Option Value
  | [], _ => none
  | (k', v') :: rest, k => if k' = k then some v' else dictGet rest k

/-- The keys of a dict, in insertion order. -/
def dictKeys (d : PyDict) : List String := d.map Prod.fst

/-- An abstract rendering of the value a Faker provider method returns for
one draw of Faker's shared generator.  The concrete lexicon lives in the
Faker library, outside this repository; the model only retains that the
result is a deterministic function of the provider kind and the consumed
draw. -/
def fakerValue (dt : DataType) (r : Nat) : String :=
  dt.value ++ "_" ++ toString r

/-- One hexadecimal digit. -/
def hexDigit (n : Nat) : Char :=
  if n < 10 then Char.ofNat (48 + n) else Char.ofNat (87 + n)

/-- Fixed-width lowercase hexadecimal rendering. -/
def hexStrAux : Nat → Nat → List Char → List Char
  | 0, _, acc => acc
  | d + 1, n, acc => hexStrAux d (n / 16) (hexDigit (n % 16) :: acc)

/-- Render `n` as exactly `digits` hexadecimal characters. -/
def hexStr (n digits : Nat) : String := String.mk (hexStrAux digits n [])

/-- The canonical hyphenated form of the version-4 UUID built from 122 random
bits `r` drawn from the OS entropy pool (`str(uuid.uuid4())`): the third
group starts with the version nibble `4` and the fourth with a variant
nibble in 8..b. -/
def uuid4String (r : Nat) : String :=
  hexStr (r / 2 ^ 90 % 2 ^ 32) 8 ++ "-" ++
    hexStr (r / 2 ^ 74 % 2 ^ 16) 4 ++ "-" ++
    hexStr (2 ^ 14 + r / 2 ^ 62 % 2 ^ 12) 4 ++ "-" ++
    hexStr ((8 + r / 2 ^ 60 % 4) * 2 ^ 12 + r / 2 ^ 48 % 2 ^ 12) 4 ++ "-" ++
    hexStr (r % 2 ^ 48) 12

/-- Python's `random.randint(a, b)`: a uniformly random integer in the closed
range `[a, b]`; raises when the range is empty.  One raw draw is consumed and
reduced modulo the range size, so over all streams the set of results is
exactly `[a, b]`. -/
def randint (a b : Int) (w : World) : Except String (Int × World) :=
  if b < a then .error "empty range for randrange()"
  else .ok (a + Int.ofNat (w.rand 0 % (b - a + 1).toNat), w.advanceRand)

/-- Python's `random.random()`: a draw in `[0, 1)` with 53-bit resolution. -/
def pyRandomDraw (w : World) : ℚ × World :=
  (((w.rand 0 % 2 ^ 53 : Nat) : ℚ) / (2 ^ 53 : ℚ), w.advanceRand)

/-- Python's `random.uniform(a, b) = a + (b - a) * random()`. -/
def pyUniform (a b : ℚ) (w : World) : ℚ × World :=
  let (t, w') := pyRandomDraw w
  (a + (b - a) * t, w')

/-- `NameGenerator.generate`: delegate to Faker. -/
def NameGenerator.generate (config : ColumnConfig) (w : World) : Value × World :=
  (.str (fakerValue .name (w.faker 0)), w.advanceFaker)

/-- `EmailGenerator.generate`: delegate to Faker. -/
def EmailGenerator.generate (config : ColumnConfig) (w : World) : Value × World :=
  (.str (fakerValue .email (w.faker 0)), w.advanceFaker)

/-- `PhoneGenerator.generate`: delegate to Faker. -/
def PhoneGenerator.generate (config : ColumnConfig) (w : World) : Value × World :=
  (.str (fakerValue .phone (w.faker 0)), w.advanceFaker)

/-- `AddressGenerator.generate`: delegate to Faker. -/
def AddressGenerator.generate (config : ColumnConfig) (w : World) : Value × World :=
  (.str (fakerValue .address (w.faker 0)), w.advanceFaker)

/-- `CompanyGenerator.generate`: delegate to Faker. -/
def CompanyGenerator.generate (config : ColumnConfig) (w : World) : Value × World :=
  (.str (fakerValue .company (w.faker 0)), w.advanceFaker)

/-- `JobGenerator.generate`: delegate to Faker. -/
def JobGenerator.generate (config : ColumnConfig) (w : World) : Value × World :=
  (.str (fakerValue .job (w.faker 0)), w.advanceFaker)

/-- `DateGenerator.generate`: delegate to Faker. -/
def DateGenerator.generate (config : ColumnConfig) (w : World) : Value × World :=
  (.str (fakerValue .date (w.faker 0)), w.advanceFaker)

/-- `IntegerGenerator.generate`: `random.randint(int(min_val), int(max_val))`
with `min_val = min_value or 0` and `max_val = max_value or 1000`. -/
def IntegerGenerator.generate (config : ColumnConfig) (w : World) :
    Except String (Int × World) :=
  randint (pyInt (config.min_value.getD 0)) (pyInt (config.max_value.getD 1000)) w

/-- `FloatGenerator.generate`: `round(random.uniform(min_val, max_val), 2)`
with `min_val = min_value or 0.0` and `max_val = max_value or 1000.0`. -/
def FloatGenerator.generate (config : ColumnConfig) (w : World) : ℚ × World :=
  let (x, w') := pyUniform (config.min_value.getD 0) (config.max_value.getD 1000) w
  (round2 x, w')

/-- `BooleanGenerator.generate`: `random.choice([True, False])`, which indexes
the two-element list with one draw reduced modulo 2. -/
def BooleanGenerator.generate (config : ColumnConfig) (w : World) : Value × World :=
  (.bool (w.rand 0 % 2 == 0), w.advanceRand)

/-- `TextGenerator.generate`: `faker.text(max_nb_chars=text_length or 50)`,
a Faker draw truncated to the requested maximum length. -/
def TextGenerator.generate (config : ColumnConfig) (w : World) : Value × World :=
  (.str (String.mk ((fakerValue .text (w.faker 0)).toList.take (config.text_length.getD 50).toNat)),
    w.advanceFaker)

/-- `URLGenerator.generate`: delegate to Faker. -/
def URLGenerator.generate (config : ColumnConfig) (w : World) : Value × World :=
  (.str (fakerValue .url (w.faker 0)), w.advanceFaker)

/-- `IPAddressGenerator.generate`: delegate to Faker. -/
def IPAddressGenerator.generate (config : ColumnConfig) (w : World) : Value × World :=
  (.str (fakerValue .ip_address (w.faker 0)), w.advanceFaker)

/-- `UUIDGenerator.generate`: `str(uuid.uuid4())`; `uuid.uuid4` reads the OS
entropy pool and is unaffected by `random.seed`. -/
def UUIDGenerator.generate (config : ColumnConfig) (w : World) : Value × World :=
  (.str (uuid4String (w.urandom 0)), w.advanceUrandom)

/-- `CreditCardGenerator.generate`: delegate to Faker. -/
def CreditCardGenerator.generate (config : ColumnConfig) (w : World) : Value × World :=
  (.str (fakerValue .credit_card (w.faker 0)), w.advanceFaker)

/-- Run the generator registered for a semantic type (one `generate` call of
the corresponding strategy class). -/
def DataGeneratorStrategy.run (dt : DataType) (config : ColumnConfig) (w : World) :
    Except String (Value × World) :=
  match dt with
  | .name => .ok (NameGenerator.generate config w)
  | .email => .ok (EmailGenerator.generate config w)
  | .phone => .ok (PhoneGenerator.generate config w)
  | .address => .ok (AddressGenerator.generate config w)
  | .company => .ok (CompanyGenerator.generate config w)
  | .job => .ok (JobGenerator.generate config w)
  | .date => .ok (DateGenerator.generate config w)
  | .integer =>
    match IntegerGenerator.generate config w with
    | .error e => .error e
    | .ok (n, w') => .ok (.int n, w')
  | .float =>
    match FloatGenerator.generate config w with
    | (q, w') => .ok (.float q, w')
  | .boolean => .ok (BooleanGenerator.generate config w)
  | .text => .ok (TextGenerator.generate config w)
  | .url => .ok (URLGenerator.generate config w)
  | .ip_address => .ok (IPAddressGenerator.generate config w)
  | .uuid => .ok (UUIDGenerator.generate config w)
  | .credit_card => .ok (CreditCardGenerator.generate config w)

/-- Membership test of a string key in the `_generators` dict of
`DataGeneratorFactory`, whose keys are the fifteen `DataType` members; a
`str`-valued enum member hashes and compares like its string value, so a
plain string is found iff it equals one of those values. -/
def dataTypeOfString (s : String) : Option DataType :=
  if s = "name" then some .name
  else if s = "email" then some .email
  else if s = "phone" then some .phone
  else if s = "address" then some .address
  else if s = "company" then some .company
  else if s = "job" then some .job
  else if s = "date" then some .date
  else if s = "integer" then some .integer
  else if s = "float" then some .float
  else if s = "boolean" then some .boolean
  else if s = "text" then some .text
  else if s = "url" then some .url
  else if s = "ip_address" then some .ip_address
  else if s = "uuid" then some .uuid
  else if s = "credit_card" then some .credit_card
  else none

/-- `DataGeneratorFactory.create_generator`: dispatch on the requested
semantic type, failing with `Unsupported data type` for an unregistered
key.  The returned `DataType` tag stands for the freshly constructed
stateless generator instance. -/
def DataGeneratorFactory.create_generator (data_type : String) : Except String DataType :=
  match dataTypeOfString data_type with
  | some dt => .ok dt
  | none => .error ("Unsupported data type: " ++ data_type)

/-- `DataGeneratorFactory.get_available_types`: the keys of the registry, in
declaration order. -/
def DataGeneratorFactory.get_available_types : List DataType :=
  [.name, .email, .phone, .address, .company, .job, .date, .integer, .float,
    .boolean, .text, .url, .ip_address, .uuid, .credit_card]

/-- One column cell of `_generate_batch`: the factory call
`create_generator(col.data_type)` (a `str`-enum member is looked up by its
string value) followed by the strategy's `generate(col)`. -/
def generateValue (col : ColumnConfig) (w : World) : Except String (Value × World) :=
  match DataGeneratorFactory.create_generator col.data_type.value with
  | .error e => .error e
  | .ok dt => DataGeneratorStrategy.run dt col w

/-- The inner column loop of `_generate_batch`: starting from the dict built
so far, generate one value per remaining column in `config.columns` order and
store it under the column's name. -/
def generateRowAux : List ColumnConfig → PyDict → World → Except String (PyDict × World)
  | [], row, w => .ok (row, w)
  | c :: rest, row, w =>
    match generateValue c w with
    | .error e => .error e
    | .ok (v, w') => generateRowAux rest (dictSet row c.name v) w'

/-- One row of `_generate_batch`: `row_data = {}` then one generated value per
column. -/
def generateRow (cols : List ColumnConfig) (w : World) : Except String (PyDict × World) :=
  generateRowAux cols [] w

/-- The row loop of `_generate_batch` over `range(start_row, end_row)`: the
loop body does not read the row index, so only the number of iterations
matters. -/
def generateRows (cols : List ColumnConfig) : Nat → World → Except String (List PyDict × World)
  | 0, w => .ok ([], w)
  | n + 1, w =>
    match generateRow cols w with
    | .error e => .error e
    | .ok (row, w') =>
      match generateRows cols n w' with
      | .error e => .error e
      | .ok (rest, w'') => .ok (row :: rest, w'')

/-- `DataGenerationService._generate_batch(config, start_row, end_row)`:
one generated row per index in the half-open range `[start_row, end_row)`. -/
def generate_batch (config : FileConfig) (start_row end_row : Nat) (w : World) :
    Except String (List PyDict × World) :=
  generateRows config.columns (end_row - start_row) w

/-- Python's `range(start, stop, step)` for a positive step, written with
explicit fuel (`stop - start` bounds the iteration count when `1 ≤ step`). -/
def pyRangeAux : Nat → Nat → Nat → Nat → List Nat
  | 0, _, _, _ => []
  | fuel + 1, start, stop, step =>
    if start < stop then start :: pyRangeAux fuel (start + step) stop step else []

/-- Python's `range(start, stop, step)` for a positive step. -/
def pyRange (start stop step : Nat) : List Nat :=
  pyRangeAux (stop - start) start stop step

/-- The batch loop body of `generate_test_data`: for each `batch_start` of the
given list, compute `batch_end = min(batch_start + batch_size, num_rows)`,
generate that batch, and extend the accumulated data. -/
def runBatchList (config : FileConfig) (batch_size : Nat) :
    List Nat → World → Except String (List PyDict × World)
  | [], w => .ok ([], w)
  | s :: rest, w =>
    match generate_batch config s (min (s + batch_size) config.num_rows) w with
    | .error e => .error e
    | .ok (batch, w') =>
      match runBatchList config batch_size rest w' with
      | .error e => .error e
      | .ok (acc, w'') => .ok (batch ++ acc, w'')

/-- The full batch loop of `generate_test_data`:
`for batch_start in range(0, num_rows, batch_size)`. -/
def runBatches (config : FileConfig) (batch_size : Nat) (w : World) :
    Except String (List PyDict × World) :=
  runBatchList config batch_size (pyRange 0 config.num_rows batch_size) w

/-- Python's `str()` conversion of a generated value, as used by the CSV, XML
and TXT writers.  The decimal formatting of floats is abstracted by the exact
rational rendering. -/
def Value.render : Value → String
  | .str s => s
  | .int n => toString n
  | .float q => toString q
  | .bool b => if b then "True" else "False"

/-- The file content a writer persists at `config.output_path`: textual for
the csv/json/xml/txt writers, a tabular in-memory frame for the excel
writer. -/
inductive FileOutput where
  | text (content : String)
  | excel (rows : List PyDict)
deriving DecidableEq, Repr

/-- Quote a CSV field the way `csv.writer` does when it contains a
delimiter, a quote or a line break. -/
def csvEscape (s : String) : String :=
  if s.toList.any (fun c => c == ',' || c == '"' || c == '\r' || c == '\n') then
    "\"" ++ String.join (s.toList.map (fun c => if c == '"' then "\"\"" else String.mk [c])) ++ "\""
  else s

/-- One CSV line (the `csv` module terminates lines with CRLF). -/
def csvLine (fields : List String) : String :=
  String.intercalate "," (fields.map csvEscape) ++ "\r\n"

/-- The fields `csv.DictWriter.writerow` emits for one row: one per field
name, missing keys rendered as the empty default. -/
def rowFields (fieldnames : List String) (row : PyDict) : List String :=
  fieldnames.map (fun f =>
    match dictGet row f with
    | some v => v.render
    | none => "")

/-- `CSVGenerator.generate`: header of column names in `config.columns`
order, then one line per row via `DictWriter`, which rejects a row holding a
key outside the field names. -/
def CSVGenerator.generate (config : FileConfig) (data : List PyDict) :
    Except String FileOutput :=
  if data.isEmpty then .error "No data provided for CSV generation"
  else
    let fieldnames := config.columns.map ColumnConfig.name
    if data.any (fun row => row.any (fun kv => !(fieldnames.contains kv.1))) then
      .error "dict contains fields not in fieldnames"
    else
      .ok (.text (csvLine fieldnames ++
        String.join (data.map (fun row => csvLine (rowFields fieldnames row)))))

/-- JSON string literal rendering (non-ASCII preserved verbatim,
`ensure_ascii=False`). -/
def jsonString (s : String) : String :=
  "\"" ++ String.join (s.toList.map (fun c =>
    if c == '"' then "\\\"" else if c == '\\' then "\\\\" else String.mk [c])) ++ "\""

/-- JSON rendering of one generated value. -/
def jsonValue : Value → String
  | .str s => jsonString s
  | .int n => toString n
  | .float q => toString q
  | .bool b => if b then "true" else "false"

/-- JSON rendering of one row object, keys in dict insertion order. -/
def jsonRow (row : PyDict) : String :=
  "\x7b" ++ String.intercalate ", "
    (row.map (fun kv => jsonString kv.1 ++ ": " ++ jsonValue kv.2)) ++ "\x7d"

/-- `JSONGenerator.generate`: the full row collection dumped as one array of
objects.  The `indent=2` whitespace layout is abstracted. -/
def JSONGenerator.generate (config : FileConfig) (data : List PyDict) :
    Except String FileOutput :=
  if data.isEmpty then .error "No data provided for JSON generation"
  else .ok (.text ("[" ++ String.intercalate ", " (data.map jsonRow) ++ "]"))

/-- One XML element with text content. -/
def xmlElement (tag content : String) : String :=
  "<" ++ tag ++ ">" ++ content ++ "</" ++ tag ++ ">"

/-- One `record` element: one child per column named after the column, text
equal to `str(row.get(col.name, ""))`. -/
def xmlRow (cols : List ColumnConfig) (row : PyDict) : String :=
  xmlElement "record" (String.join (cols.map (fun c =>
    xmlElement c.name
      (match dictGet row c.name with
       | some v => v.render
       | none => ""))))

/-- `XMLGenerator.generate`: a `data` root holding one `record` element per
row. -/
def XMLGenerator.generate (config : FileConfig) (data : List PyDict) :
    Except String FileOutput :=
  if data.isEmpty then .error "No data provided for XML generation"
  else .ok (.text ("<?xml version='1.0' encoding='utf-8'?>" ++
    xmlElement "data" (String.join (data.map (xmlRow config.columns)))))

/-- `TXTGenerator.generate`: pipe-delimited header, a dash ruler of the
header's length, then one pipe-delimited line per row with missing keys
rendered empty. -/
def TXTGenerator.generate (config : FileConfig) (data : List PyDict) :
    Except String FileOutput :=
  if data.isEmpty then .error "No data provided for TXT generation"
  else
    let header := String.intercalate " | " (config.columns.map ColumnConfig.name)
    .ok (.text (header ++ "\n" ++ String.mk (List.replicate header.length '-') ++ "\n" ++
      String.join (data.map (fun row =>
        String.intercalate " | " (config.columns.map (fun c =>
          match dictGet row c.name with
          | some v => v.render
          | none => "")) ++ "\n"))))

/-- `ExcelGenerator.generate`: `pd.DataFrame(data).to_excel(...)`, modelled as
the tabular frame built from the row collection. -/
def ExcelGenerator.generate (config : FileConfig) (data : List PyDict) :
    Except String FileOutput :=
  if data.isEmpty then .error "No data provided for Excel generation"
  else .ok (.excel data)

/-- Membership test of a format string in the `_generators` dict of
`FileGeneratorFactory`. -/
def fileFormatOfString (s : String) : Option FileFormat :=
  if s = "csv" then some .csv
  else if s = "json" then some .json
  else if s = "xml" then some .xml
  else if s = "txt" then some .txt
  else if s = "excel" then some .excel
  else none

/-- `FileGeneratorFactory.create_generator`: dispatch on the requested format
string, failing with `Unsupported file format` for an unregistered key. -/
def FileGeneratorFactory.create_generator (file_format : String) :
    Except String FileFormat :=
  match fileFormatOfString file_format with
  | some f => .ok f
  | none => .error ("Unsupported file format: " ++ file_format)

/-- `FileGeneratorFactory.get_available_formats`: the registry keys in
declaration order. -/
def FileGeneratorFactory.get_available_formats : List String :=
  ["csv", "json", "xml", "txt", "excel"]

/-- Run the writer registered for a format (one `generate` call of the
corresponding strategy class). -/
def FileGeneratorStrategy.run (f : FileFormat) (config : FileConfig)
    (data : List PyDict) : Except String FileOutput :=
  match f with
  | .csv => CSVGenerator.generate config data
  | .json => JSONGenerator.generate config data
  | .xml => XMLGenerator.generate config data
  | .txt => TXTGenerator.generate config data
  | .excel => ExcelGenerator.generate config data

/-- The error kind `generate_test_data` raises: a `RuntimeError` whose
message wraps the stringified original exception, which is preserved as the
cause (`raise ... from e`). -/
structure GenerationFailedError where
  message : String
  cause : String
deriving DecidableEq, Repr

/-- The body of the `try` block of
`DataGenerationService.generate_test_data`: seed the global `random` source
when a seed is given, run the batch loop, dispatch the format writer, write
the file, and return the output path together with the written content.

The `mkdir(parents=True, exist_ok=True)` call on the output path's parent is
a filesystem side effect outside the model. -/
def generate_inner (seedFn : Int → DrawStream) (request : GenerationRequest)
    (w : World) : Except String ((String × FileOutput) × World) :=
  let w1 := match request.seed with
    | some s => { w with rand := seedFn s }
    | none => w
  match runBatches request.config request.batch_size w1 with
  | .error e => .error e
  | .ok (all_data, w2) =>
    match FileGeneratorFactory.create_generator request.config.file_format.value with
    | .error e => .error e
    | .ok gen =>
      match FileGeneratorStrategy.run gen request.config all_data with
      | .error e => .error e
      | .ok out => .ok ((request.config.output_path, out), w2)

/-- `DataGenerationService.generate_test_data`: the whole pipeline runs inside
one `try`, and any exception `e` is re-raised as
`RuntimeError(f"Data generation failed: [e]") from e`. -/
def generate_test_data (seedFn : Int → DrawStream) (request : GenerationRequest)
    (w : World) : Except GenerationFailedError ((String × FileOutput) × World) :=
  match generate_inner seedFn request w with
  | .ok x => .ok x
  | .error e => .error ⟨"Data generation failed: " ++ e, e⟩

/-- Split a character list on a separator character. -/
def splitOnChar (sep : Char) : List Char → List Char → List (List Char)
  | [], acc => [acc.reverse]
  | c :: rest, acc =>
    if c == sep then acc.reverse :: splitOnChar sep rest []
    else splitOnChar sep rest (c :: acc)

/-- The final path component of a path string (`PurePath.name`). -/
def pathName (path : String) : String :=
  match (splitOnChar '/' path.toList []).getLast? with
  | some n => String.mk n
  | none => path

/-- Position of the last dot of a list of characters, if any. -/
def lastDotIdx (cs : List Char) : Option Nat :=
  (cs.enum.filterMap (fun ic => if ic.2 == '.' then some ic.1 else none)).getLast?

/-- `PurePath.suffix`: the extension of the final component, dot included;
empty when the final component has no dot in an interior position. -/
def pySuffix (path : String) : String :=
  let cs := (pathName path).toList
  match lastDotIdx cs with
  | some i => if 0 < i ∧ i < cs.length - 1 then String.mk (cs.drop i) else ""
  | none => ""

/-- Python's `str.lower()` on ASCII letters (all extensions involved are
ASCII). -/
def asciiLowerChar (c : Char) : Char :=
  if 'A' ≤ c ∧ c ≤ 'Z' then Char.ofNat (c.toNat + 32) else c

/-- Lowercase a string character by character. -/
def asciiLower (s : String) : String := String.mk (s.toList.map asciiLowerChar)

/-- `DataGenerationService.validate_configuration`: re-run the pydantic
validators, re-check the row/column ceilings, and check that the output
path's extension matches the format; all failures are collected into one
list of messages. -/
def validate_configuration (config : FileConfig) : List String :=
  (match FileConfig.construct config.file_format config.num_rows config.num_columns
      config.columns config.output_path with
   | .error e => ["Configuration validation failed: " ++ e]
   | .ok _ =>
     match config.columns.find? (fun c => !(ColumnConfig.constructible c)) with
     | some _ => ["Configuration validation failed: invalid column configuration"]
     | none => []) ++
  (if 1000000 < config.num_rows then ["Number of rows cannot exceed 1,000,000"] else []) ++
  (if 100 < config.num_columns then ["Number of columns cannot exceed 100"] else []) ++
  (if asciiLower (pySuffix config.output_path) ≠ "." ++ config.file_format.value then
    ["Output file extension should match format: ." ++ config.file_format.value]
  else [])

/-- Decidable equality of `Except` results with decidable components. -/
def exceptDecEq {ε α : Type} [DecidableEq ε] [DecidableEq α] :
    DecidableEq (Except ε α)
  | .error a, .error b =>
    if h : a = b then .isTrue (by rw [h]) else .isFalse (by intro hc; cases hc; exact h rfl)
  | .error _, .ok _ => .isFalse (by intro hc; cases hc)
  | .ok _, .error _ => .isFalse (by intro hc; cases hc)
  | .ok a, .ok b =>
    if h : a = b then .isTrue (by rw [h]) else .isFalse (by intro hc; cases hc; exact h rfl)

instance {ε α : Type} [DecidableEq ε] [DecidableEq α] : DecidableEq (Except ε α) :=
  exceptDecEq

/-- A draw stream of zeros, used for concrete runs. -/
def zeroStream : DrawStream := fun _ => 0

/-- A concrete process state whose three streams return only zeros. -/
def w0 : World := ⟨zeroStream, zeroStream, zeroStream⟩

/-- A concrete stand-in for the seeding function of the global PRNG (any
deterministic function of the seed models `random.seed`). -/
def seedFn0 : Int → DrawStream := fun _ => zeroStream

/-- The output component of a finished pipeline run: the path and content of
the file it wrote, discarding the final process state. -/
def producedFile (r : Except GenerationFailedError ((String × FileOutput) × World)) :
    Option (String × FileOutput) :=
  match r with
  | .ok (out, _) => some out
  | .error _ => none

theorem create_generator_value (dt : DataType) :
    DataGeneratorFactory.create_generator dt.value = .ok dt := by
  cases dt <;> rfl

theorem file_create_generator_value (f : FileFormat) :
    FileGeneratorFactory.create_generator f.value = .ok f := by
  cases f <;> rfl

theorem generateValue_eq (col : ColumnConfig) (w : World) :
    generateValue col w = DataGeneratorStrategy.run col.data_type col w := by
  unfold generateValue
  rw [create_generator_value]

theorem dictKeys_dictSet (d : PyDict) (k : String) (v : Value) :
    dictKeys (dictSet d k v) = if k ∈ dictKeys d then dictKeys d else dictKeys d ++ [k] := by
  induction d with
  | nil => simp [dictSet, dictKeys]
  | cons hd tl ih =>
    obtain ⟨hk, hv⟩ := hd
    by_cases h : hk = k
    · subst h
      simp [dictSet, dictKeys]
    · simp only [dictSet, dictKeys, List.map_cons] at ih ⊢
      rw [if_neg h]
      simp only [List.map_cons, List.mem_cons]
      by_cases h2 : k ∈ tl.map Prod.fst
      · rw [if_pos h2] at ih
        rw [if_pos (Or.inr h2), ih]
      · rw [if_neg h2] at ih
        have hne : ¬(k = hk ∨ k ∈ tl.map Prod.fst) := by
          rintro (hc | hc)
          · exact h hc.symm
          · exact h2 hc
        rw [if_neg hne, ih]
        simp

theorem mem_dictKeys_dictSet (d : PyDict) (k : String) (v : Value) (k' : String) :
    k' ∈ dictKeys (dictSet d k v) ↔ k' ∈ dictKeys d ∨ k' = k := by
  rw [dictKeys_dictSet]
  by_cases h : k ∈ dictKeys d
  · rw [if_pos h]
    constructor
    · exact Or.inl
    · rintro (h1 | h1)
      · exact h1
      · subst h1; exact h
  · rw [if_neg h]
    simp

theorem nodup_dictKeys_dictSet (d : PyDict) (k : String) (v : Value)
    (h : (dictKeys d).Nodup) : (dictKeys (dictSet d k v)).Nodup := by
  rw [dictKeys_dictSet]
  by_cases hm : k ∈ dictKeys d
  · rw [if_pos hm]; exact h
  · rw [if_neg hm]
    simp [List.nodup_append, h, hm]

theorem dictGet_dictSet (d : PyDict) (k : String) (v : Value) (k' : String) :
    dictGet (dictSet d k v) k' = if k = k' then some v else dictGet d k' := by
  induction d with
  | nil => simp [dictSet, dictGet]
  | cons hd tl ih =>
    cases hd with
    | mk hk hv =>
      by_cases h : hk = k
      · subst h
        by_cases h2 : hk = k'
        · subst h2
          simp [dictSet, dictGet]
        · simp [dictSet, dictGet, h2]
      · by_cases h2 : hk = k'
        · subst h2
          have : ¬ k = hk := fun hc => h hc.symm
          simp [dictSet, dictGet, h, this]
        · simp [dictSet, dictGet, h, h2, ih]

theorem generateRowAux_keys (cols : List ColumnConfig) :
    ∀ (d : PyDict) (w : World) (row : PyDict) (w' : World),
      generateRowAux cols d w = .ok (row, w') →
      ∀ k, k ∈ dictKeys row ↔ k ∈ dictKeys d ∨ k ∈ cols.map ColumnConfig.name := by
  induction cols with
  | nil =>
    intro d w row w' h k
    simp [generateRowAux] at h
    rw [h.1.symm]
    simp
  | cons c rest ih =>
    intro d w row w' h k
    simp only [generateRowAux] at h
    cases hv : generateValue c w with
    | error e => rw [hv] at h; exact absurd h (by simp)
    | ok vw =>
      rw [hv] at h
      obtain ⟨v, w1⟩ := vw
      have := ih (dictSet d c.name v) w1 row w' h k
      rw [this, mem_dictKeys_dictSet]
      simp only [List.map_cons, List.mem_cons]
      tauto

theorem generateRowAux_nodup (cols : List ColumnConfig) :
    ∀ (d : PyDict) (w : World) (row : PyDict) (w' : World),
      generateRowAux cols d w = .ok (row, w') →
      (dictKeys d).Nodup → (dictKeys row).Nodup := by
  induction cols with
  | nil =>
    intro d w row w' h hd
    simp [generateRowAux] at h
    rw [h.1.symm]
    exact hd
  | cons c rest ih =>
    intro d w row w' h hd
    simp only [generateRowAux] at h
    cases hv : generateValue c w with
    | error e => rw [hv] at h; exact absurd h (by simp)
    | ok vw =>
      rw [hv] at h
      obtain ⟨v, w1⟩ := vw
      exact ih (dictSet d c.name v) w1 row w' h (nodup_dictKeys_dictSet d c.name v hd)

theorem generateRow_keys (cols : List ColumnConfig) (w : World) (row : PyDict)
    (w' : World) (h : generateRow cols w = .ok (row, w')) :
    ∀ k, k ∈ dictKeys row ↔ k ∈ cols.map ColumnConfig.name := by
  intro k
  have := generateRowAux_keys cols [] w row w' h k
  simpa [dictKeys] using this

theorem generateRows_length (cols : List ColumnConfig) :
    ∀ (n : Nat) (w : World) (rows : List PyDict) (w' : World),
      generateRows cols n w = .ok (rows, w') → rows.length = n := by
  intro n
  induction n with
  | zero =>
    intro w rows w' h
    simp [generateRows] at h
    simp [h.1]
  | succ m ih =>
    intro w rows w' h
    simp only [generateRows] at h
    cases hr : generateRow cols w with
    | error e => rw [hr] at h; exact absurd h (by simp)
    | ok rw1 =>
      obtain ⟨row, w1⟩ := rw1
      rw [hr] at h
      dsimp only at h
      cases hrest : generateRows cols m w1 with
      | error e => rw [hrest] at h; exact absurd h (by simp)
      | ok rsw =>
        obtain ⟨rest, w2⟩ := rsw
        rw [hrest] at h
        dsimp only at h
        simp at h
        rw [← h.1]
        simp [ih w1 rest w2 hrest]

theorem generateRows_keys (cols : List ColumnConfig) :
    ∀ (n : Nat) (w : World) (rows : List PyDict) (w' : World),
      generateRows cols n w = .ok (rows, w') →
      ∀ row ∈ rows, ∀ k, k ∈ dictKeys row ↔ k ∈ cols.map ColumnConfig.name := by
  intro n
  induction n with
  | zero =>
    intro w rows w' h
    simp [generateRows] at h
    rw [h.1]
    simp
  | succ m ih =>
    intro w rows w' h
    simp only [generateRows] at h
    cases hr : generateRow cols w with
    | error e => rw [hr] at h; exact absurd h (by simp)
    | ok rw1 =>
      obtain ⟨row, w1⟩ := rw1
      rw [hr] at h
      dsimp only at h
      cases hrest : generateRows cols m w1 with
      | error e => rw [hrest] at h; exact absurd h (by simp)
      | ok rsw =>
        obtain ⟨rest, w2⟩ := rsw
        rw [hrest] at h
        dsimp only at h
        simp at h
        rw [← h.1]
        intro r hr2
        rcases List.mem_cons.1 hr2 with h1 | h1
        · subst h1
          exact generateRow_keys cols w r w1 hr
        · exact ih w1 rest w2 hrest r h1

theorem generateRows_add (cols : List ColumnConfig) (m k : Nat) :
    ∀ (w : World),
      generateRows cols (m + k) w =
        match generateRows cols m w with
        | .error e => .error e
        | .ok (a, w1) =>
          match generateRows cols k w1 with
          | .error e => .error e
          | .ok (b, w2) => .ok (a ++ b, w2) := by
  induction m with
  | zero =>
    intro w
    simp only [Nat.zero_add, generateRows]
    cases generateRows cols k w with
    | error e => rfl
    | ok bw =>
      obtain ⟨b, w2⟩ := bw
      rfl
  | succ m ih =>
    intro w
    have hs : m + 1 + k = (m + k) + 1 := by omega
    rw [hs]
    simp only [generateRows]
    cases generateRow cols w with
    | error e => rfl
    | ok rw1 =>
      obtain ⟨row, w1⟩ := rw1
      dsimp only
      rw [ih w1]
      cases generateRows cols m w1 with
      | error e => rfl
      | ok aw =>
        obtain ⟨a, w2⟩ := aw
        dsimp only
        cases generateRows cols k w2 with
        | error e => rfl
        | ok bw =>
          obtain ⟨b, w3⟩ := bw
          simp

theorem pyRangeAux_fuel (step : Nat) (hstep : 1 ≤ step) :
    ∀ (fuel fuel' start stop : Nat), stop - start ≤ fuel → stop - start ≤ fuel' →
      pyRangeAux fuel start stop step = pyRangeAux fuel' start stop step := by
  intro fuel
  induction fuel with
  | zero =>
    intro fuel' start stop h h'
    have : ¬ start < stop := by omega
    cases fuel' with
    | zero => rfl
    | succ f => simp [pyRangeAux, this]
  | succ f ih =>
    intro fuel' start stop h h'
    by_cases hlt : start < stop
    · cases fuel' with
      | zero => omega
      | succ f' =>
        simp only [pyRangeAux, if_pos hlt]
        rw [ih f' (start + step) stop (by omega) (by omega)]
    · cases fuel' with
      | zero => simp [pyRangeAux, hlt]
      | succ f' => simp [pyRangeAux, hlt]

theorem pyRange_unfold (start stop step : Nat) (hstep : 1 ≤ step) :
    pyRange start stop step =
      if start < stop then start :: pyRange (start + step) stop step else [] := by
  by_cases h : start < stop
  · rw [if_pos h]
    unfold pyRange
    have h1 : stop - start = (stop - start - 1) + 1 := by omega
    rw [h1]
    simp only [pyRangeAux, if_pos h]
    rw [pyRangeAux_fuel step hstep (stop - start - 1) (stop - (start + step)) (start + step) stop
      (by omega) (by omega)]
  · rw [if_neg h]
    unfold pyRange
    have h1 : stop - start = 0 := by omega
    rw [h1]
    rfl

theorem runBatchList_pyRange (config : FileConfig) (bs : Nat) (hbs : 1 ≤ bs) :
    ∀ (d : Nat) (s : Nat) (w : World), config.num_rows - s = d →
      runBatchList config bs (pyRange s config.num_rows bs) w =
        generateRows config.columns (config.num_rows - s) w := by
  intro d
  induction d using Nat.strong_induction_on with
  | _ d ih =>
    intro s w hd
    rw [pyRange_unfold s config.num_rows bs hbs]
    by_cases h : s < config.num_rows
    · rw [if_pos h]
      simp only [runBatchList, generate_batch]
      have hmin : min (s + bs) config.num_rows - s =
          min bs (config.num_rows - s) := by omega
      rw [hmin]
      have hsplit : config.num_rows - s =
          min bs (config.num_rows - s) + (config.num_rows - (s + bs)) := by omega
      conv_rhs => rw [hsplit, generateRows_add]
      cases hk : generateRows config.columns (min bs (config.num_rows - s)) w with
      | error e => rfl
      | ok aw =>
        obtain ⟨a, w1⟩ := aw
        dsimp only
        have hrec := ih (config.num_rows - (s + bs)) (by omega) (s + bs) w1 rfl
        rw [hrec]
    · rw [if_neg h]
      have h0 : config.num_rows - s = 0 := by omega
      rw [h0]
      rfl

theorem runBatches_eq_single_pass (config : FileConfig) (bs : Nat) (hbs : 1 ≤ bs)
    (w : World) :
    runBatches config bs w = generateRows config.columns config.num_rows w := by
  unfold runBatches
  have := runBatchList_pyRange config bs hbs (config.num_rows - 0) 0 w rfl
  simpa using this

theorem randint_bounds (a b : Int) (w : World) (v : Int) (w' : World)
    (h : randint a b w = .ok (v, w')) : a ≤ v ∧ v ≤ b := by
  unfold randint at h
  by_cases hab : b < a
  · rw [if_pos hab] at h
    exact absurd h (by simp)
  · rw [if_neg hab] at h
    simp only [Except.ok.injEq, Prod.mk.injEq] at h
    have hv := h.1
    have hn : ((b - a + 1).toNat : Int) = b - a + 1 := Int.toNat_of_nonneg (by omega)
    have hpos : 0 < (b - a + 1).toNat := by omega
    have hmod : w.rand 0 % (b - a + 1).toNat < (b - a + 1).toNat :=
      Nat.mod_lt _ hpos
    have hmod' : (Int.ofNat (w.rand 0 % (b - a + 1).toNat)) < ((b - a + 1).toNat : Int) :=
      Int.ofNat_lt.mpr hmod
    have hnonneg : 0 ≤ Int.ofNat (w.rand 0 % (b - a + 1).toNat) := Int.ofNat_nonneg _
    omega

theorem pyRandomDraw_bounds (w : World) :
    0 ≤ (pyRandomDraw w).1 ∧ (pyRandomDraw w).1 < 1 := by
  unfold pyRandomDraw
  constructor
  · positivity
  · rw [div_lt_one (by positivity)]
    exact_mod_cast Nat.mod_lt (w.rand 0) (by norm_num)

theorem pyUniform_bounds (a b : ℚ) (hab : a ≤ b) (w : World) :
    a ≤ (pyUniform a b w).1 ∧ (pyUniform a b w).1 ≤ b := by
  unfold pyUniform
  obtain ⟨h0, h1⟩ := pyRandomDraw_bounds w
  set t := (pyRandomDraw w).1 with ht
  constructor
  · simp only
    nlinarith
  · simp only
    nlinarith

theorem roundHalfEven_dist (q : ℚ) :
    -(1 / 2) ≤ (roundHalfEven q : ℚ) - q ∧ (roundHalfEven q : ℚ) - q ≤ 1 / 2 := by
  have hfl : (⌊q⌋ : ℚ) ≤ q := Int.floor_le q
  have hfu : q < (⌊q⌋ : ℚ) + 1 := Int.lt_floor_add_one q
  unfold roundHalfEven
  split_ifs with h1 h2 h3
  · constructor <;> linarith
  · push_cast
    constructor <;> linarith
  · have hq : q - (⌊q⌋ : ℚ) = 1 / 2 := by linarith
    constructor <;> linarith
  · have hq : q - (⌊q⌋ : ℚ) = 1 / 2 := by linarith
    push_cast
    constructor <;> linarith

theorem round2_dist (q : ℚ) :
    -(1 / 200) ≤ round2 q - q ∧ round2 q - q ≤ 1 / 200 := by
  obtain ⟨h1, h2⟩ := roundHalfEven_dist (q * 100)
  unfold round2
  constructor <;> [linarith; linarith]

/-- Specification device for duplicate-name analysis: the raw sequence of
(column name, generated value) cells of one row, one per column in
`config.columns` order, before the dict collapses repeated names. -/
def generateCells : List ColumnConfig → World → Except String (List (String × Value) × World)
  | [], w => .ok ([], w)
  | c :: rest, w =>
    match generateValue c w with
    | .error e => .error e
    | .ok (v, w') =>
      match generateCells rest w' with
      | .error e => .error e
      | .ok (cells, w'') => .ok ((c.name, v) :: cells, w'')

theorem generateRowAux_eq_cells (cols : List ColumnConfig) :
    ∀ (d : PyDict) (w : World),
      generateRowAux cols d w =
        match generateCells cols w with
        | .error e => .error e
        | .ok (cells, w') =>
          .ok (cells.foldl (fun acc kv => dictSet acc kv.1 kv.2) d, w') := by
  induction cols with
  | nil => intro d w; rfl
  | cons c rest ih =>
    intro d w
    simp only [generateRowAux, generateCells]
    cases generateValue c w with
    | error e => rfl
    | ok vw =>
      obtain ⟨v, w1⟩ := vw
      dsimp only
      rw [ih (dictSet d c.name v) w1]
      cases generateCells rest w1 with
      | error e => rfl
      | ok cw =>
        obtain ⟨cells, w2⟩ := cw
        simp

theorem generateCells_names (cols : List ColumnConfig) :
    ∀ (w : World) (cells : List (String × Value)) (w' : World),
      generateCells cols w = .ok (cells, w') →
      cells.map Prod.fst = cols.map ColumnConfig.name := by
  induction cols with
  | nil =>
    intro w cells w' h
    simp [generateCells] at h
    simp [h.1]
  | cons c rest ih =>
    intro w cells w' h
    simp only [generateCells] at h
    cases hv : generateValue c w with
    | error e => rw [hv] at h; exact absurd h (by simp)
    | ok vw =>
      obtain ⟨v, w1⟩ := vw
      rw [hv] at h
      dsimp only at h
      cases hc : generateCells rest w1 with
      | error e => rw [hc] at h; exact absurd h (by simp)
      | ok cw =>
        obtain ⟨cs, w2⟩ := cw
        rw [hc] at h
        dsimp only at h
        simp at h
        rw [← h.1]
        simp [ih w1 cs w2 hc]

theorem dictGet_append (l1 l2 : PyDict) (k : String) :
    dictGet (l1 ++ l2) k =
      match dictGet l1 k with
      | some v => some v
      | none => dictGet l2 k := by
  induction l1 with
  | nil => rfl
  | cons hd tl ih =>
    obtain ⟨k0, v0⟩ := hd
    by_cases h : k0 = k
    · simp [dictGet, h]
    · simp only [List.cons_append, dictGet, if_neg h]
      exact ih

theorem dictGet_foldl (cells : List (String × Value)) :
    ∀ (d : PyDict) (k : String),
      dictGet (cells.foldl (fun acc kv => dictSet acc kv.1 kv.2) d) k =
        match dictGet cells.reverse k with
        | some v => some v
        | none => dictGet d k := by
  induction cells with
  | nil => intro d k; rfl
  | cons hd tl ih =>
    obtain ⟨k0, v0⟩ := hd
    intro d k
    simp only [List.foldl_cons, List.reverse_cons]
    rw [ih (dictSet d k0 v0) k, dictGet_append]
    cases dictGet tl.reverse k with
    | some v => rfl
    | none =>
      dsimp only
      rw [dictGet_dictSet]
      by_cases h : k0 = k
      · simp [dictGet, h]
      · simp [dictGet, h]

theorem nodup_same_mem_length {l1 l2 : List String}
    (h1 : l1.Nodup) (h2 : l2.Nodup) (h : ∀ a, a ∈ l1 ↔ a ∈ l2) :
    l1.length = l2.length :=
  ((List.perm_ext_iff_of_nodup h1 h2).2 h).length_eq

/-- A two-row, one-UUID-column csv configuration used as a concrete run. -/
def cfg1 : FileConfig := ⟨.csv, 2, 1, [⟨"id", .uuid, none, none, none⟩], "out.csv"⟩

/-- The rows the batch loop produces for `cfg1` from `w0`. -/
def rows1 : List PyDict :=
  [[("id", .str (uuid4String 0))], [("id", .str (uuid4String 0))]]

/-- C1: for every request whose File Specification is valid, a completed run
of the generation loop produces exactly `config.num_rows` rows, and the key
set of every produced row equals the set of column names of
`config.columns`. -/
theorem c1_row_count_and_column_set (config : FileConfig) (bs : Nat) (w : World)
    (rows : List PyDict)
    (hvalid : config.valid = true) (hbs1 : 100 ≤ bs) (hbs2 : bs ≤ 10000)
    (hrun : (runBatches config bs w).map Prod.fst = .ok rows) :
    rows.length = config.num_rows ∧
      ∀ row ∈ rows, ∀ k,
        k ∈ dictKeys row ↔ k ∈ config.columns.map ColumnConfig.name := by
  rw [runBatches_eq_single_pass config bs (by omega) w] at hrun
  cases hg : generateRows config.columns config.num_rows w with
  | error e =>
    rw [hg] at hrun
    exact absurd hrun (by simp [Except.map])
  | ok rw1 =>
    obtain ⟨rows0, w'⟩ := rw1
    rw [hg] at hrun
    simp [Except.map] at hrun
    subst hrun
    exact ⟨generateRows_length config.columns config.num_rows w rows0 w' hg,
      generateRows_keys config.columns config.num_rows w rows0 w' hg⟩

/-- Witness for C1 at a concrete valid request: two rows, one `id` column. -/
theorem c1_witness :
    (cfg1.valid = true ∧ 100 ≤ 100 ∧ 100 ≤ 10000 ∧
      (runBatches cfg1 100 w0).map Prod.fst = .ok rows1) ∧
    (rows1.length = cfg1.num_rows ∧
      ∀ row ∈ rows1, ∀ k,
        k ∈ dictKeys row ↔ k ∈ cfg1.columns.map ColumnConfig.name) :=
  ⟨⟨by decide, by decide, by decide, by decide⟩,
    c1_row_count_and_column_set cfg1 100 w0 rows1 (by decide) (by decide) (by decide)
      (by decide)⟩

/-- An integer column with a non-integral lower bound. -/
def c2colInt : ColumnConfig := ⟨"n", .integer, some (5 / 2), some 10, none⟩

/-- A float column whose upper bound 0.016 has three decimal places. -/
def c2colFloat : ColumnConfig := ⟨"x", .float, some 0, some (2 / 125), none⟩

/-- A process state whose next `random` draw maps to `random() = 63/64`. -/
def c2wFloat : World := ⟨fun _ => 63 * 2 ^ 47, zeroStream, zeroStream⟩

/-- C2 counterexample: with `min_value = 2.5` the integer generator can
return 2, which is below `min_value`; and with bounds `[0, 0.016]` the float
generator can return `round(0.01575, 2) = 0.02`, which exceeds
`max_value`. -/
theorem c2_counterexample :
    ((IntegerGenerator.generate c2colInt w0).map Prod.fst = .ok 2 ∧
      ¬ ((5 / 2 : ℚ) ≤ ((2 : Int) : ℚ))) ∧
    ((FloatGenerator.generate c2colFloat c2wFloat).1 = 1 / 50 ∧
      ¬ ((1 / 50 : ℚ) ≤ 2 / 125)) :=
  ⟨⟨by decide, by norm_num⟩, ⟨by decide, by norm_num⟩⟩

/-- C2 (amended): every integer value lies between the *int-coerced* bounds
`int(min_value or 0)` and `int(max_value or 1000)` (truncation toward zero),
and every float value is the 2-decimal rounding of a uniform draw inside the
exact bounds, hence lies within the bounds widened by 1/200 on each side. -/
theorem c2_amended_bounds (col : ColumnConfig) (w : World) :
    (∀ v : Int, (IntegerGenerator.generate col w).map Prod.fst = .ok v →
      pyInt (col.min_value.getD 0) ≤ v ∧ v ≤ pyInt (col.max_value.getD 1000)) ∧
    (col.min_value.getD 0 ≤ col.max_value.getD 1000 →
      ∃ x : ℚ, col.min_value.getD 0 ≤ x ∧ x ≤ col.max_value.getD 1000 ∧
        (FloatGenerator.generate col w).1 = round2 x ∧
        col.min_value.getD 0 - 1 / 200 ≤ (FloatGenerator.generate col w).1 ∧
        (FloatGenerator.generate col w).1 ≤ col.max_value.getD 1000 + 1 / 200) := by
  constructor
  · intro v hv
    unfold IntegerGenerator.generate at hv
    cases hr : randint (pyInt (col.min_value.getD 0)) (pyInt (col.max_value.getD 1000)) w with
    | error e => rw [hr] at hv; exact absurd hv (by simp [Except.map])
    | ok vw =>
      obtain ⟨v0, w'⟩ := vw
      rw [hr] at hv
      simp [Except.map] at hv
      subst hv
      exact randint_bounds _ _ _ _ _ hr
  · intro hab
    refine ⟨(pyUniform (col.min_value.getD 0) (col.max_value.getD 1000) w).1, ?_, ?_, ?_, ?_, ?_⟩
    · exact (pyUniform_bounds _ _ hab w).1
    · exact (pyUniform_bounds _ _ hab w).2
    · rfl
    · have hd := round2_dist (pyUniform (col.min_value.getD 0) (col.max_value.getD 1000) w).1
      have hu := (pyUniform_bounds _ _ hab w).1
      have : (FloatGenerator.generate col w).1 =
          round2 (pyUniform (col.min_value.getD 0) (col.max_value.getD 1000) w).1 := rfl
      rw [this]
      linarith [hd.1]
    · have hd := round2_dist (pyUniform (col.min_value.getD 0) (col.max_value.getD 1000) w).1
      have hu := (pyUniform_bounds _ _ hab w).2
      have : (FloatGenerator.generate col w).1 =
          round2 (pyUniform (col.min_value.getD 0) (col.max_value.getD 1000) w).1 := rfl
      rw [this]
      linarith [hd.2]

/-- A column with both bounds absent, for the C2 witness. -/
def c2wit : ColumnConfig := ⟨"v", .integer, none, none, none⟩

/-- Witness for the amended C2 at a concrete column and state. -/
theorem c2_amended_witness :
    ((IntegerGenerator.generate c2wit w0).map Prod.fst = .ok 0 ∧
      pyInt (c2wit.min_value.getD 0) ≤ (0 : Int) ∧
      (0 : Int) ≤ pyInt (c2wit.max_value.getD 1000)) ∧
    (c2wit.min_value.getD 0 ≤ c2wit.max_value.getD 1000 ∧
      ∃ x : ℚ, c2wit.min_value.getD 0 ≤ x ∧ x ≤ c2wit.max_value.getD 1000 ∧
        (FloatGenerator.generate c2wit w0).1 = round2 x ∧
        c2wit.min_value.getD 0 - 1 / 200 ≤ (FloatGenerator.generate c2wit w0).1 ∧
        (FloatGenerator.generate c2wit w0).1 ≤ c2wit.max_value.getD 1000 + 1 / 200) :=
  ⟨⟨by decide, ((c2_amended_bounds c2wit w0).1 0 (by decide)).1,
      ((c2_amended_bounds c2wit w0).1 0 (by decide)).2⟩,
    ⟨by decide, (c2_amended_bounds c2wit w0).2 (by decide)⟩⟩

/-- C3: the spec requires construction of a column with both bounds set and
`min_value >= max_value` to fail, and the code's own `validate_numeric_range`
validator carries exactly that error message — but pydantic's `info.data`
never contains the field currently being validated, so the guard
`'max_value' in info.data` is false during the only validation that could
compare the bounds, and construction of `min_value = 5 >= 3 = max_value`
succeeds. -/
theorem c3_inverted_range_construction_succeeds :
    ColumnConfig.construct "price" DataType.integer (some 5) (some 3) none =
      .ok ⟨"price", DataType.integer, some 5, some 3, none⟩ := by decide

/-- A request with a fixed seed whose single column is an Identifier (UUID)
column. -/
def c4req : GenerationRequest :=
  ⟨⟨.csv, 1, 1, [⟨"id", .uuid, none, none, none⟩], "out.csv"⟩, some 42, 100⟩

/-- The OS entropy stream at the first invocation. -/
def c4urandom : DrawStream := fun n => n

/-- The process state at the first invocation. -/
def c4w : World := ⟨zeroStream, zeroStream, c4urandom⟩

/-- The process state the first invocation leaves behind: `random.seed(42)`
has replaced the PRNG stream, and one OS entropy draw has been consumed;
the second invocation starts here. -/
def c4w2 : World := ⟨zeroStream, zeroStream, tailStream c4urandom⟩

/-- C4: two consecutive invocations of `generate_test_data` with the
identical fixed-seed request do not produce identical files when a UUID
column is present: `uuid.uuid4` draws fresh OS entropy that `random.seed`
does not control, so the second run's file content differs from the
first's. -/
theorem c4_fixed_seed_reruns_differ :
    (generate_test_data seedFn0 c4req c4w).map (fun x => x.2) = .ok c4w2 ∧
    (generate_test_data seedFn0 c4req c4w).map (fun x => x.1) ≠
      (generate_test_data seedFn0 c4req c4w2).map (fun x => x.1) :=
  ⟨rfl, by decide⟩

/-- C5: for every legal batch size, partitioning `[0, num_rows)` into
consecutive batches of that size and concatenating the batch results is
identical — rows, order, and final PRNG state — to a single unbatched pass
over `[0, num_rows)`. -/
theorem c5_batching_invariance (config : FileConfig) (bs : Nat) (w : World)
    (h1 : 100 ≤ bs) (h2 : bs ≤ 10000) :
    runBatches config bs w = generateRows config.columns config.num_rows w :=
  runBatches_eq_single_pass config bs (by omega) w

/-- Witness for C5 at a concrete request and batch size. -/
theorem c5_witness :
    (100 ≤ 100 ∧ 100 ≤ 10000) ∧
    runBatches cfg1 100 w0 = generateRows cfg1.columns cfg1.num_rows w0 :=
  ⟨⟨by decide, by decide⟩, c5_batching_invariance cfg1 100 w0 (by decide) (by decide)⟩

/-- C6: every registered writer rejects an empty row collection with its
`No data provided` error, and (errors producing no output in the model) no
file is created. -/
theorem c6_empty_dataset_rejected (config : FileConfig) :
    CSVGenerator.generate config [] = .error "No data provided for CSV generation" ∧
    JSONGenerator.generate config [] = .error "No data provided for JSON generation" ∧
    XMLGenerator.generate config [] = .error "No data provided for XML generation" ∧
    TXTGenerator.generate config [] = .error "No data provided for TXT generation" ∧
    ExcelGenerator.generate config [] = .error "No data provided for Excel generation" :=
  ⟨rfl, rfl, rfl, rfl, rfl⟩

/-- C7: requesting a generator for a semantic type outside the registered
type values fails with `Unsupported data type` naming the requested type, and
requesting a writer for a format outside the registered format strings fails
with `Unsupported file format`; both factories are pure dispatch and perform
no I/O. -/
theorem c7_unsupported_dispatch_errors (s t : String)
    (hs : s ∉ DataGeneratorFactory.get_available_types.map DataType.value)
    (ht : t ∉ FileGeneratorFactory.get_available_formats) :
    DataGeneratorFactory.create_generator s = .error ("Unsupported data type: " ++ s) ∧
    FileGeneratorFactory.create_generator t = .error ("Unsupported file format: " ++ t) := by
  constructor
  · simp only [DataGeneratorFactory.get_available_types, DataType.value, List.map_cons,
      List.map_nil, List.mem_cons, List.not_mem_nil, or_false, not_or] at hs
    obtain ⟨h1, h2, h3, h4, h5, h6, h7, h8, h9, h10, h11, h12, h13, h14, h15⟩ := hs
    simp [DataGeneratorFactory.create_generator, dataTypeOfString,
      h1, h2, h3, h4, h5, h6, h7, h8, h9, h10, h11, h12, h13, h14, h15]
  · simp only [FileGeneratorFactory.get_available_formats, List.mem_cons,
      List.not_mem_nil, or_false, not_or] at ht
    obtain ⟨g1, g2, g3, g4, g5⟩ := ht
    simp [FileGeneratorFactory.create_generator, fileFormatOfString, g1, g2, g3, g4, g5]

/-- Witness for C7 at the unregistered type `invalid_type` and the
unregistered format `yaml`. -/
theorem c7_witness :
    ("invalid_type" ∉ DataGeneratorFactory.get_available_types.map DataType.value ∧
      "yaml" ∉ FileGeneratorFactory.get_available_formats) ∧
    (DataGeneratorFactory.create_generator "invalid_type" =
        .error ("Unsupported data type: " ++ "invalid_type") ∧
      FileGeneratorFactory.create_generator "yaml" =
        .error ("Unsupported file format: " ++ "yaml")) :=
  ⟨⟨by decide, by decide⟩,
    c7_unsupported_dispatch_errors "invalid_type" "yaml" (by decide) (by decide)⟩

/-- C8: `generate_test_data` either returns the inner pipeline's success
unchanged, or fails with the single wrapping error kind whose message is
`Data generation failed: ` followed by the original exception, preserved as
the cause; no other error shape can escape. -/
theorem c8_single_wrapped_error_kind (seedFn : Int → DrawStream)
    (request : GenerationRequest) (w : World) :
    (∀ x, generate_inner seedFn request w = .ok x →
      generate_test_data seedFn request w = .ok x) ∧
    (∀ e, generate_test_data seedFn request w = .error e →
      e.message = "Data generation failed: " ++ e.cause ∧
      generate_inner seedFn request w = .error e.cause) := by
  unfold generate_test_data
  cases hg : generate_inner seedFn request w with
  | ok x =>
    constructor
    · intro y hy
      rw [hy]
    · intro e he
      exact absurd he (by simp)
  | error e0 =>
    constructor
    · intro y hy
      exact absurd hy (by simp)
    · intro e he
      simp at he
      rw [← he]
      exact ⟨rfl, rfl⟩

/-- The successful run's result used in the C8 witness. -/
def c8out : (String × FileOutput) × World :=
  (("out.csv", FileOutput.text ("id\r\n" ++ uuid4String 0 ++ "\r\n")), c4w2)

/-- A request whose generation fails: the dead range validator admits
`min_value = 5 >= 3 = max_value`, and `randint(5, 3)` then raises. -/
def c8reqErr : GenerationRequest :=
  ⟨⟨.csv, 1, 1, [⟨"n", .integer, some 5, some 3, none⟩], "out.csv"⟩, none, 100⟩

/-- The wrapped error of the failing C8 run. -/
def c8err : GenerationFailedError :=
  ⟨"Data generation failed: empty range for randrange()", "empty range for randrange()"⟩

/-- Witness for C8: one concrete run per branch — a success passed through
unchanged, and a failure wrapped with its cause preserved. -/
theorem c8_witness :
    (generate_inner seedFn0 c4req c4w = .ok c8out ∧
      generate_test_data seedFn0 c4req c4w = .ok c8out) ∧
    (generate_test_data seedFn0 c8reqErr w0 = .error c8err ∧
      c8err.message = "Data generation failed: " ++ c8err.cause ∧
      generate_inner seedFn0 c8reqErr w0 = .error c8err.cause) :=
  ⟨⟨rfl, (c8_single_wrapped_error_kind seedFn0 c4req c4w).1 c8out rfl⟩,
    ⟨rfl, (c8_single_wrapped_error_kind seedFn0 c8reqErr w0).2 c8err rfl⟩⟩

/-- A csv-format configuration whose output path ends in `.txt`. -/
def c9cfg : FileConfig := ⟨.csv, 1, 1, [⟨"id", .uuid, none, none, none⟩], "out.txt"⟩

/-- The request wrapping `c9cfg`. -/
def c9req : GenerationRequest := ⟨c9cfg, some 0, 100⟩

/-- C9 counterexample: the explicit validation flags the `.txt`/csv
extension mismatch, yet `generate_test_data` writes the CSV file at
`out.txt` anyway — the orchestrator never invokes
`validate_configuration`. -/
theorem c9_counterexample_file_written_despite_invalid :
    validate_configuration c9cfg = ["Output file extension should match format: .csv"] ∧
    (producedFile (generate_test_data seedFn0 c9req w0)).map Prod.fst = some "out.txt" :=
  ⟨by decide, by decide⟩

/-- C9 (amended): `generate_test_data` performs no explicit validation call;
the list-of-errors validation (including the extension check) is a separate
operation left to callers.  For every process state and seeding function, the
csv request with the `.txt` output path — which `validate_configuration`
rejects — still generates and writes its file at that path. -/
theorem c9_amended_generate_skips_explicit_validation (w : World)
    (seedFn : Int → DrawStream) :
    validate_configuration c9cfg ≠ [] ∧
    (producedFile (generate_test_data seedFn c9req w)).map Prod.fst = some "out.txt" :=
  ⟨by decide, rfl⟩

/-- C10: whenever one row is generated successfully, its entries collapse
duplicate column names: the raw cell sequence has one cell per column in
`config.columns` order, the dict keeps exactly one entry per distinct name
whose value is the cell of the last column bearing that name, the keys are
duplicate-free, and the row's size is the number of distinct column names
(hence can be strictly below `column_count`). -/
theorem c10_duplicate_names_collapse_to_last (cols : List ColumnConfig)
    (w : World) (row : PyDict) (w' : World)
    (h : generateRow cols w = .ok (row, w')) :
    (∃ cells, generateCells cols w = .ok (cells, w') ∧
      cells.map Prod.fst = cols.map ColumnConfig.name ∧
      ∀ k, dictGet row k = dictGet cells.reverse k) ∧
    (dictKeys row).Nodup ∧
    row.length = (cols.map ColumnConfig.name).dedup.length := by
  have h0 := h
  unfold generateRow at h
  rw [generateRowAux_eq_cells] at h
  cases hc : generateCells cols w with
  | error e => rw [hc] at h; exact absurd h (by simp)
  | ok cw =>
    obtain ⟨cells, w2⟩ := cw
    rw [hc] at h
    dsimp only at h
    simp only [Except.ok.injEq, Prod.mk.injEq] at h
    obtain ⟨hrow, hw⟩ := h
    subst hw
    have hnodup : (dictKeys row).Nodup :=
      generateRowAux_nodup cols [] w row w2 h0 (by simp [dictKeys])
    refine ⟨⟨cells, rfl, generateCells_names cols w cells w2 hc, ?_⟩, hnodup, ?_⟩
    · intro k
      rw [← hrow, dictGet_foldl]
      cases dictGet cells.reverse k with
      | some v => rfl
      | none => rfl
    · have hmem := generateRow_keys cols w row w2 h0
      have hlen : row.length = (dictKeys row).length := by
        simp [dictKeys]
      rw [hlen]
      refine nodup_same_mem_length hnodup (List.nodup_dedup _) ?_
      intro a
      rw [hmem a, List.mem_dedup]

/-- Two columns sharing the name `x`: an integer column then a UUID
column. -/
def c10cols : List ColumnConfig :=
  [⟨"x", .integer, none, none, none⟩, ⟨"x", .uuid, none, none, none⟩]

/-- The single-entry row the duplicate-name columns produce from `w0`: the
UUID value of the second `x` column overwrote the integer of the first. -/
def c10row : PyDict := [("x", .str (uuid4String 0))]

/-- The process state after generating the duplicate-name row. -/
def c10w2 : World := ⟨tailStream zeroStream, zeroStream, tailStream zeroStream⟩

/-- Witness for C10: generation succeeds on the duplicate-name columns, the
row has a single duplicate-free entry holding the last column's value, and
its size 1 is strictly below the column count 2. -/
theorem c10_witness :
    (generateRow c10cols w0 = .ok (c10row, c10w2)) ∧
    (dictKeys c10row).Nodup ∧
    c10row.length = (c10cols.map ColumnConfig.name).dedup.length ∧
    c10row.length < c10cols.length :=
  ⟨rfl,
    (c10_duplicate_names_collapse_to_last c10cols w0 c10row c10w2 rfl).2.1,
    (c10_duplicate_names_collapse_to_last c10cols w0 c10row c10w2 rfl).2.2,
    by decide⟩
